import Mathlib

/-!
Verification model of the scm-ads-api campaign scheduler and creative
targeting resolver.

The embedding is shallow:

* Absolute instants are `Int` values (Unix seconds).  A Go `time.Time`
  carries both the instant and the offset (in seconds) of its location,
  modelled by `GoTime`; named timezones are modelled as fixed offsets
  (DST is out of scope).
* PostgreSQL string and time functions (`lower`, `trim`, `position`,
  `split_part`, the `::time` cast) are modelled over Lean `String`s.
  The `::time` cast accepts `H[H][:M[M][:S[S]]]` digit fields with
  minutes/seconds below 60 and a total not above 24:00:00, raising an
  error (modelled with `Except`) otherwise.
* Queries are pure functions over an explicit list of rows; an SQL error
  aborts the whole statement, which the model propagates with `Except`.
-/

instance {ε α : Type} [DecidableEq ε] [DecidableEq α] : DecidableEq (Except ε α) := fun a b =>
  match a, b with
  | .ok x, .ok y =>
      if h : x = y then isTrue (by rw [h]) else isFalse (by intro hc; cases hc; exact h rfl)
  | .error x, .error y =>
      if h : x = y then isTrue (by rw [h]) else isFalse (by intro hc; cases hc; exact h rfl)
  | .ok _, .error _ => isFalse (by intro hc; cases hc)
  | .error _, .ok _ => isFalse (by intro hc; cases hc)

/-! ## Go and PostgreSQL string primitives

All string manipulation works on the underlying character lists so that every
definition reduces in the kernel (`String.splitOn`, `String.map` and friends
from the core library do not). -/

/-- Strip characters satisfying `p` from both ends of a character list. -/
def trimEndsBy (p : Char → Bool) (cs : List Char) : List Char :=
  ((cs.dropWhile p).reverse.dropWhile p).reverse

/-- Split a character list on a separator character: Go `strings.Split` and
PostgreSQL `split_part`'s field decomposition for a one-character separator. -/
def splitChar (sep : Char) : List Char → List (List Char)
  | [] => [[]]
  | c :: cs =>
      if c = sep then [] :: splitChar sep cs
      else
        match splitChar sep cs with
        | [] => [[c]]
        | f :: rest => (c :: f) :: rest

/-- PostgreSQL `lower`: ASCII lowercasing of every character. -/
def pgLower (s : String) : String := String.mk (s.data.map Char.toLower)

/-- PostgreSQL `trim`: strips leading and trailing space characters. -/
def pgTrim (s : String) : String := String.mk (trimEndsBy (· = ' ') s.data)

/-- Go `strings.TrimSpace`: strips leading and trailing whitespace. -/
def goTrimSpace (s : String) : String := String.mk (trimEndsBy Char.isWhitespace s.data)

/-- PostgreSQL `split_part(s, sep, n)` for a one-character separator
(1-based; empty string when out of range). -/
def pgSplitPart (s : String) (sep : Char) (n : Nat) : String :=
  String.mk ((splitChar sep s.data).getD (n - 1) [])

/-- Value of a digit-character list, most significant first. -/
def digitsCore : List Char → Nat → Option Nat
  | [], acc => some acc
  | c :: cs, acc =>
      if c.isDigit then digitsCore cs (acc * 10 + (c.toNat - 48)) else none

/-- Parse a non-empty all-digit string as a natural number. -/
def digitsVal : List Char → Option Nat
  | [] => none
  | cs => digitsCore cs 0

/-- Go `strconv.Atoi` on a character list: optional sign followed by at least
one digit.  (Overflow is not modelled; the callers range-check the result.) -/
def goAtoiL : List Char → Option Int
  | [] => none
  | '+' :: rest => (digitsVal rest).map Int.ofNat
  | '-' :: rest => (digitsVal rest).map (fun n => -(Int.ofNat n))
  | cs => (digitsVal cs).map Int.ofNat

/-- Go `strconv.Atoi`. -/
def goAtoi (s : String) : Option Int := goAtoiL s.data

/-- PostgreSQL `::time` cast, in seconds after midnight: trims spaces, splits
on `:` into hour / minute / second digit fields, requires minutes and seconds
below 60 and a total of at most 24:00:00. Unparseable input is `none`,
which the query layer turns into a statement-aborting error. -/
def pgTimeCast (s : String) : Option Nat :=
  match splitChar ':' (trimEndsBy (· = ' ') s.data) with
  | [a] =>
      match digitsVal a with
      | some h => if h * 3600 ≤ 86400 then some (h * 3600) else none
      | none => none
  | [a, b] =>
      match digitsVal a, digitsVal b with
      | some h, some m =>
          if m ≤ 59 ∧ h * 3600 + m * 60 ≤ 86400 then some (h * 3600 + m * 60) else none
      | _, _ => none
  | [a, b, c] =>
      match digitsVal a, digitsVal b, digitsVal c with
      | some h, some m, some sec =>
          if m ≤ 59 ∧ sec ≤ 59 ∧ h * 3600 + m * 60 + sec ≤ 86400 then
            some (h * 3600 + m * 60 + sec)
          else none
      | _, _, _ => none
  | _ => none

/-! ## Go civil-time model -/

/-- A Go `time.Time`: an absolute instant (Unix seconds) together with the
offset, in seconds, of the location it is expressed in.  `t.In(loc)` keeps
`t` and replaces `off`; `.UTC()` sets `off := 0`. -/
structure GoTime where
  t : Int
  off : Int
deriving Repr, DecidableEq

/-- Civil day number (days since the epoch) of a `GoTime`'s local clock. -/
def civilDay (gt : GoTime) : Int := (gt.t + gt.off) / 86400

/-- Seconds after local midnight of a `GoTime`'s local clock. -/
def civilSecs (gt : GoTime) : Int := (gt.t + gt.off) % 86400

/-- Go `Weekday.String()` names, indexed `0 = Sunday` … `6 = Saturday`. -/
def weekdayName (i : Int) : String :=
  if i = 0 then "Sunday"
  else if i = 1 then "Monday"
  else if i = 2 then "Tuesday"
  else if i = 3 then "Wednesday"
  else if i = 4 then "Thursday"
  else if i = 5 then "Friday"
  else "Saturday"

/-- Go `now.Weekday().String()`: the epoch day (1970-01-01) was a Thursday. -/
def goWeekdayString (gt : GoTime) : String :=
  weekdayName ((civilDay gt + 4) % 7)

/-- Zero-padded two-digit decimal rendering. -/
def pad2 (n : Nat) : String :=
  if n < 10 then "0" ++ toString n else toString n

/-- Go `now.Format("15:04")`: the local clock's `HH:MM`. -/
def goFormatHHMM (gt : GoTime) : String :=
  pad2 ((civilSecs gt) / 3600).toNat ++ ":" ++ pad2 (((civilSecs gt) % 3600) / 60).toNat

/-! ## Creative rows and the device query (`creativeRepository.ListByDevice` /
`CountByDevice`, `src/unnamed/part_006`) -/

/-- A row of the `creatives` table (the columns the device query touches). -/
structure Creative where
  id : String
  name : String
  campaignId : String
  selectedDays : List String
  timeSlots : List String
  devices : List String
  uploadedAt : Int
deriving Repr, DecidableEq

/-- `EXISTS (SELECT 1 FROM unnest(devices) dv WHERE lower(trim(dv)) = lower($1))`:
note the stored entry is trimmed, the queried device is only lowercased. -/
def deviceMatch (c : Creative) (device : String) : Bool :=
  c.devices.any (fun dv => pgLower (pgTrim dv) == pgLower device)

/-- `EXISTS (SELECT 1 FROM unnest(selected_days) d WHERE lower(trim(d)) = lower($2))`. -/
def dayMatch (c : Creative) (day : String) : Bool :=
  c.selectedDays.any (fun d => pgLower (pgTrim d) == pgLower day)

/-- One `time_slots` element against the query's `HH:MM` string `tm`:
`(position('-' in ts) > 0 AND $3::time >= split_part(ts,'-',1)::time
AND $3::time <= split_part(ts,'-',2)::time)
OR (position('-' in ts) = 0 AND lower(trim(ts)) = lower($4))`.
A failing `::time` cast aborts the statement (`Except.error`). -/
def slotPred (tm ts : String) : Except Unit Bool :=
  if ts.data.contains '-' then
    match pgTimeCast tm, pgTimeCast (pgSplitPart ts '-' 1), pgTimeCast (pgSplitPart ts '-' 2) with
    | some t, some a, some b => .ok (decide (a ≤ t ∧ t ≤ b))
    | _, _, _ => .error ()
  else
    .ok (pgLower (pgTrim ts) == pgLower tm)

/-- `EXISTS` over a list with a fallible per-element test: stops at the first
`true`, propagates the first error met before one. -/
def anyExcept (p : α → Except Unit Bool) : List α → Except Unit Bool
  | [] => .ok false
  | x :: xs =>
      match p x with
      | .error e => .error e
      | .ok true => .ok true
      | .ok false => anyExcept p xs

/-- The full `WHERE` clause of `ListByDevice`/`CountByDevice` for one row. -/
def creativeRowPred (device : String) (activeNow : Bool) (day tm : String)
    (c : Creative) : Except Unit Bool :=
  if deviceMatch c device then
    if activeNow then
      if dayMatch c day then anyExcept (slotPred tm) c.timeSlots
      else .ok false
    else .ok true
  else .ok false

/-- Filter a list with a fallible predicate; any error aborts the statement. -/
def filterExcept (p : α → Except Unit Bool) : List α → Except Unit (List α)
  | [] => .ok []
  | x :: xs =>
      match p x with
      | .error e => .error e
      | .ok b =>
          match filterExcept p xs with
          | .error e => .error e
          | .ok r => .ok (if b then x :: r else r)

/-- Stable insertion keeping `uploadedAt` descending (`ORDER BY uploaded_at DESC`). -/
def insertByUploadedDesc (c : Creative) : List Creative → List Creative
  | [] => [c]
  | x :: xs =>
      if x.uploadedAt < c.uploadedAt then c :: x :: xs
      else x :: insertByUploadedDesc c xs

/-- `ORDER BY uploaded_at DESC` over the filtered rows. -/
def sortByUploadedDesc : List Creative → List Creative
  | [] => []
  | x :: xs => insertByUploadedDesc x (sortByUploadedDesc xs)

/-- `creativeRepository.ListByDevice`: filters the `creatives` rows by the
device / active-now predicate, orders by `uploaded_at DESC`, and applies
`LIMIT`/`OFFSET` only when positive, exactly as the Go code appends them. -/
def ListByDevice (rows : List Creative) (device : String) (activeNow : Bool)
    (now : GoTime) (limit offset : Int) : Except Unit (List Creative) := do
  let day := goWeekdayString now
  let tm := goFormatHHMM now
  let matched ← filterExcept (creativeRowPred device activeNow day tm) rows
  let ordered := sortByUploadedDesc matched
  let paged := if offset > 0 then ordered.drop offset.toNat else ordered
  return if limit > 0 then paged.take limit.toNat else paged

/-- `creativeRepository.CountByDevice`: `COUNT(*)` under the same predicate. -/
def CountByDevice (rows : List Creative) (device : String) (activeNow : Bool)
    (now : GoTime) : Except Unit Nat := do
  let day := goWeekdayString now
  let tm := goFormatHHMM now
  let matched ← filterExcept (creativeRowPred device activeNow day tm) rows
  return matched.length

/-- `CreativeHandler.ListCreativesByDevice` (`venue_handler.go`): evaluates the
query at `time.Now().UTC()` — the instant `tNow` with offset `0`. -/
def ListCreativesByDevice (rows : List Creative) (device : String)
    (activeNow : Bool) (tNow : Int) (limit offset : Int) : Except Unit (List Creative) :=
  ListByDevice rows device activeNow ⟨tNow, 0⟩ limit offset

/-! ## Campaign rows and the scheduler transitions
(`campaignRepository.ActivateScheduledStartingOn`,
`internal/repository/venue_repository.go`; loops in `cmd/api/main.go`) -/

/-- A row of the `campaigns` table (the columns the transitions touch).
`startDate`/`endDate` are `TIMESTAMP WITH TIME ZONE`, i.e. absolute instants. -/
structure Campaign where
  id : String
  status : String
  startDate : Int
  endDate : Int
  advertiserId : String
  updatedAt : Int
deriving Repr, DecidableEq

/-- `DATE(x AT TIME ZONE tz)` for an instant `x` and a zone of offset `off`
seconds: the civil day number of `x` in that zone. -/
def sqlLocalDate (off x : Int) : Int := (x + off) / 86400

/-- The Go parameter defaults at the top of `ActivateScheduledStartingOn`:
an empty status string falls back to the given default name. -/
def effStatus (s dflt : String) : String := if s = "" then dflt else s

/-- Effect of the `ActivateScheduledStartingOn` UPDATE on one row:
`SET status = 'active', updated_at = NOW() WHERE status = $1 AND
DATE(start_date AT TIME ZONE $3) = DATE($2 AT TIME ZONE $3)`.
`dbNow` is the database's `NOW()` instant. -/
def activateRow (scheduledStatus : String) (off startDate dbNow : Int)
    (c : Campaign) : Campaign :=
  if c.status = effStatus scheduledStatus "scheduled" ∧
      sqlLocalDate off c.startDate = sqlLocalDate off startDate then
    { c with status := "active", updatedAt := dbNow }
  else c

/-- Whether `ActivateScheduledStartingOn`'s WHERE clause selects a row. -/
def activateHit (scheduledStatus : String) (off startDate : Int) (c : Campaign) : Bool :=
  decide (c.status = effStatus scheduledStatus "scheduled" ∧
    sqlLocalDate off c.startDate = sqlLocalDate off startDate)

/-- `campaignRepository.ActivateScheduledStartingOn`: applies the UPDATE to
every row and returns the new table together with `RowsAffected()`. -/
def ActivateScheduledStartingOn (rows : List Campaign) (startDate : Int)
    (scheduledStatus : String) (off dbNow : Int) : List Campaign × Nat :=
  (rows.map (activateRow scheduledStatus off startDate dbNow),
   (rows.filter (activateHit scheduledStatus off startDate)).length)

/-- Modelled from the spec: the repository implementation of
`CompleteActiveEndedBefore` is not in the source tree (only its interface,
`internal/interfaces/campaign_repository.go`, its mocks and its caller in
`cmd/api/main.go` are).  Per the spec, the Complete transition moves every
campaign whose status equals the configured active-status name and whose
`end_date`, as a civil date in the configured timezone, is strictly before
"today" in that timezone, to the configured completed-status name. -/
def completeRow (activeStatus completedStatus : String) (off now : Int)
    (c : Campaign) : Campaign :=
  if c.status = effStatus activeStatus "active" ∧
      sqlLocalDate off c.endDate < sqlLocalDate off now then
    { c with status := effStatus completedStatus "completed" }
  else c

/-- Modelled from the spec: the bulk Complete transition over the table
(see `completeRow`). -/
def CompleteActiveEndedBefore (rows : List Campaign) (now : Int)
    (activeStatus completedStatus : String) (off : Int) : List Campaign :=
  rows.map (completeRow activeStatus completedStatus off now)

/-! ## Scheduler startup configuration (`cmd/api/main.go`) -/

/-- `getEnv`: the default when the variable is unset or blank after trimming. -/
def goGetEnv (v : Option String) (dflt : String) : String :=
  match v with
  | none => dflt
  | some s => if goTrimSpace s = "" then dflt else s

/-- `parseHHMM` from `cmd/api/main.go`: splits on `:`, `Atoi`s both parts,
range-checks hour 0–23 and minute 0–59, and returns the given defaults on any
failure. -/
def parseHHMM (s : String) (defaultHour defaultMinute : Int) : Int × Int :=
  match splitChar ':' s.data with
  | [hs, ms] =>
      match goAtoiL hs with
      | none => (defaultHour, defaultMinute)
      | some h =>
          match goAtoiL ms with
          | none => (defaultHour, defaultMinute)
          | some m =>
              if h < 0 ∨ h > 23 ∨ m < 0 ∨ m > 59 then (defaultHour, defaultMinute)
              else (h, m)
  | _ => (defaultHour, defaultMinute)

/-- The strings `parseHHMM` accepts without falling back to its defaults:
two `Atoi`-parseable fields with hour 0–23 and minute 0–59. -/
def validHHMM (s : String) : Bool :=
  match splitChar ':' s.data with
  | [hs, ms] =>
      match goAtoiL hs, goAtoiL ms with
      | some h, some m => decide (0 ≤ h ∧ h ≤ 23 ∧ 0 ≤ m ∧ m ≤ 59)
      | _, _ => false
  | _ => false

/-- `nextRunAt` from `cmd/api/main.go`: today's civil date in the location
(offset `off`) at `hour:minute`, as an absolute instant; if that is not
strictly after `now`, the same instant plus 24 hours. -/
def nextRunAt (now off hour minute : Int) : Int :=
  let localDay := (now + off) / 86400
  let run := localDay * 86400 + hour * 3600 + minute * 60 - off
  if run > now then run else run + 86400

/-- The configuration a scheduler loop starts with: resolved location offset,
status name, fire hour and minute. -/
structure SchedulerConfig where
  locOff : Int
  tzName : String
  statusName : String
  hour : Int
  minute : Int
deriving Repr, DecidableEq

/-- Configuration phase of `startScheduledCampaignActivator`: reads
`CAMPAIGN_SCHEDULER_TZ` (default `"UTC"`), `CAMPAIGN_SCHEDULED_STATUS`
(default `"scheduled"`), `CAMPAIGN_SCHEDULER_TIME` (default `"00:01"`,
parsed with `parseHHMM _ 0 1`), and falls back to UTC (offset 0, name
`"UTC"`) when `time.LoadLocation` (the `resolve` argument) fails.  It always
produces a configuration: no failure path aborts startup. -/
def activatorConfig (resolve : String → Option Int)
    (tzEnv statusEnv timeEnv : Option String) : SchedulerConfig :=
  let tzName := goGetEnv tzEnv "UTC"
  let statusName := goGetEnv statusEnv "scheduled"
  let hm := parseHHMM (goGetEnv timeEnv "00:01") 0 1
  match resolve tzName with
  | some o => ⟨o, tzName, statusName, hm.1, hm.2⟩
  | none => ⟨0, "UTC", statusName, hm.1, hm.2⟩

/-- Configuration phase of `startScheduledCampaignCompleter`: reads
`CAMPAIGN_SCHEDULER_TZ` (default `"UTC"`), `CAMPAIGN_COMPLETED_STATUS`
(default `"completed"`), `CAMPAIGN_COMPLETER_TIME` (default `"00:02"`,
parsed with `parseHHMM _ 0 2`), with the same UTC fallback. -/
def completerConfig (resolve : String → Option Int)
    (tzEnv statusEnv timeEnv : Option String) : SchedulerConfig :=
  let tzName := goGetEnv tzEnv "UTC"
  let statusName := goGetEnv statusEnv "completed"
  let hm := parseHHMM (goGetEnv timeEnv "00:02") 0 2
  match resolve tzName with
  | some o => ⟨o, tzName, statusName, hm.1, hm.2⟩
  | none => ⟨0, "UTC", statusName, hm.1, hm.2⟩

/-! ## Specification-side reference definitions -/

/-- The absolute instant of civil day `day` at `hour:minute` in the zone of
offset `off` seconds (spec side, for comparing with `nextRunAt`). -/
def fireInstant (off day hour minute : Int) : Int :=
  day * 86400 + hour * 3600 + minute * 60 - off

/-- The weekday name of an instant's UTC civil date (spec side, for
comparing with the handler's query arguments). -/
def utcWeekdayString (t : Int) : String :=
  weekdayName ((t / 86400 + 4) % 7)

/-- The `HH:MM` rendering of an instant's UTC time-of-day (spec side). -/
def utcHHMM (t : Int) : String :=
  pad2 ((t % 86400) / 3600).toNat ++ ":" ++ pad2 (((t % 86400) % 3600) / 60).toNat

/-! ## Concrete rows used by the closed theorems -/

/-- A creative with the overnight slot `22:00-02:00`, targeted at `kiosk-1`
on Mondays. -/
def overnightCreative : Creative :=
  { id := "cr1", name := "n", campaignId := "cmp",
    selectedDays := ["Monday"], timeSlots := ["22:00-02:00"],
    devices := ["kiosk-1"], uploadedAt := 5 }

/-- A creative whose single time slot contains a range separator but an
unparseable end time. -/
def malformedSlotCreative : Creative :=
  { id := "cr4", name := "n", campaignId := "cmp",
    selectedDays := ["Monday"], timeSlots := ["22:00-banana"],
    devices := ["kiosk-1"], uploadedAt := 5 }

/-- A creative with one malformed slot followed by a well-formed slot that
covers Monday 09:30. -/
def mixedSlotCreative : Creative :=
  { id := "cr4b", name := "n", campaignId := "cmp",
    selectedDays := ["Monday"], timeSlots := ["22:00-banana", "09:00-17:00"],
    devices := ["kiosk-1"], uploadedAt := 6 }

/-- Monday 1970-01-05, 23:30 UTC, as Unix seconds. -/
def monday2330 : Int := 4 * 86400 + 23 * 3600 + 30 * 60

/-- Monday 1970-01-05, 09:30 UTC, as Unix seconds. -/
def monday0930 : Int := 4 * 86400 + 9 * 3600 + 30 * 60

/-! ## Claims about the device query -/

/-- C1: the spec says a stored overnight slot (`end < start`, e.g.
`"22:00-02:00"`) matches instants in `[start, 24:00) ∪ [00:00, end]` under
the active-now device query.  The SQL instead tests
`now >= start AND now <= end`, which is never true when `start > end`:
the slot `"22:00-02:00"` matches no time-of-day string at all, and the
creative is not returned (and not counted) at Monday 23:30 even though the
spec says it must be. -/
theorem c1_overnight_slot_never_matches :
    (∀ tm : String, slotPred tm "22:00-02:00" ≠ .ok true) ∧
    ListCreativesByDevice [overnightCreative] "kiosk-1" true monday2330 0 0 = .ok [] ∧
    CountByDevice [overnightCreative] "kiosk-1" true ⟨monday2330, 0⟩ = .ok 0 := by
  refine ⟨?_, by decide, by decide⟩
  intro tm h
  have h1 : pgTimeCast (pgSplitPart "22:00-02:00" '-' 1) = some 79200 := by decide
  have h2 : pgTimeCast (pgSplitPart "22:00-02:00" '-' 2) = some 7200 := by decide
  have hc : ("22:00-02:00".data.contains '-') = true := by decide
  rw [slotPred, hc, if_pos rfl, h1, h2] at h
  cases hcast : pgTimeCast tm with
  | none => rw [hcast] at h; exact Except.noConfusion h
  | some t =>
      rw [hcast] at h
      have := Except.ok.inj h
      have hb : 79200 ≤ t ∧ t ≤ 7200 := of_decide_eq_true this
      omega

/-- C4: the spec says a single malformed time-slot string is treated as
non-matching for that slot only, the rest of the evaluation completing.
In the SQL, the `::time` cast of the malformed part raises an error that
aborts the whole statement: both the list and the count query fail, and a
well-formed matching slot elsewhere in the same array does not rescue the
query. -/
theorem c4_malformed_slot_aborts_query :
    ListCreativesByDevice [malformedSlotCreative] "kiosk-1" true monday2330 0 0 = .error () ∧
    CountByDevice [malformedSlotCreative] "kiosk-1" true ⟨monday2330, 0⟩ = .error () ∧
    ListCreativesByDevice [mixedSlotCreative] "kiosk-1" true monday0930 0 0 = .error () := by
  refine ⟨by decide, by decide, by decide⟩

/-- C8 counterexample: the claim's "iff both sides are equal after
lowercasing and trimming" fails, because the SQL trims only the stored
entry (`lower(trim(dv)) = lower($1)`): stored `"lobby-a"` and queried
`" lobby-a "` are equal after lowercasing and trimming both, yet the query
does not match the row. -/
theorem c8_trim_asymmetry_counterexample :
    pgLower (pgTrim "lobby-a") = pgLower (pgTrim " lobby-a ") ∧
    deviceMatch { id := "cr8", name := "n", campaignId := "cmp",
                  selectedDays := [], timeSlots := [],
                  devices := ["lobby-a"], uploadedAt := 1 } " lobby-a " = false := by
  refine ⟨by decide, by decide⟩

/-- C8 amended: a stored device entry matches the queried device string iff
the stored entry, lowercased and trimmed, equals the queried string merely
lowercased; in particular a creative with device entry `" Lobby-A "` matches
a query for `"lobby-a"`. -/
theorem c8_device_match_characterisation :
    (∀ (c : Creative) (device : String),
      deviceMatch c device = true ↔
        ∃ dv ∈ c.devices, pgLower (pgTrim dv) = pgLower device) ∧
    deviceMatch { id := "cr8b", name := "n", campaignId := "cmp",
                  selectedDays := [], timeSlots := [],
                  devices := [" Lobby-A "], uploadedAt := 1 } "lobby-a" = true := by
  refine ⟨?_, by decide⟩
  intro c device
  simp [deviceMatch, List.any_eq_true, beq_iff_eq]

/-! ## Claims about the scheduler transitions -/

/-- A scheduled campaign whose `start_date` instant falls on civil day 20148
(2025-03-01 UTC). -/
def marchCampaign : Campaign :=
  { id := "cp1", status := "scheduled", startDate := 20148 * 86400,
    endDate := 20200 * 86400, advertiserId := "adv", updatedAt := 0 }

/-- 2025-03-01 01:00 UTC as Unix seconds. -/
def today0301 : Int := 20148 * 86400 + 3600

/-- 2025-02-28 01:00 UTC as Unix seconds. -/
def today0228 : Int := 20147 * 86400 + 3600

/-- C2: one Activate tick sets every campaign whose status is the scheduled
status and whose `start_date` civil date (in the zone of offset `off`) equals
the civil date of the tick's "today" to `active`; a campaign whose
`start_date` is a different civil date is left unchanged.  The tick is the
per-row UPDATE applied to every row. -/
theorem c2_activate_on_start_date (off today dbNow : Int) (rows : List Campaign) :
    (ActivateScheduledStartingOn rows today "scheduled" off dbNow).1
      = rows.map (activateRow "scheduled" off today dbNow) ∧
    ∀ c : Campaign, c.status = "scheduled" →
      ((sqlLocalDate off c.startDate = sqlLocalDate off today →
          (activateRow "scheduled" off today dbNow c).status = "active") ∧
       (sqlLocalDate off c.startDate ≠ sqlLocalDate off today →
          activateRow "scheduled" off today dbNow c = c)) := by
  refine ⟨rfl, ?_⟩
  intro c hst
  constructor
  · intro hd
    simp [activateRow, effStatus, hst, hd]
  · intro hd
    simp [activateRow, effStatus, hst, hd]

/-- Witness for `c2_activate_on_start_date`: the spec's concrete scenario.
A scheduled campaign with `start_date` on 2025-03-01 becomes `active` when
the tick runs with "today" = 2025-03-01 UTC and is unchanged when the tick
runs with "today" = 2025-02-28 UTC. -/
theorem c2_activate_witness :
    (activateRow "scheduled" 0 today0301 999 marchCampaign).status = "active" ∧
    activateRow "scheduled" 0 today0228 999 marchCampaign = marchCampaign := by
  constructor
  · exact ((c2_activate_on_start_date 0 today0301 999 []).2 marchCampaign (by decide)).1 (by decide)
  · exact ((c2_activate_on_start_date 0 today0228 999 []).2 marchCampaign (by decide)).2 (by decide)

/-- Rows produced by the Activate UPDATE are never selected again by the same
WHERE clause, provided the configured scheduled-status name is not the
literal `"active"` the UPDATE writes. -/
theorem activateRow_not_hit (sched : String) (off today dbNow : Int) (c : Campaign)
    (hs : effStatus sched "scheduled" ≠ "active") :
    activateHit sched off today (activateRow sched off today dbNow c) = false := by
  by_cases hc : c.status = effStatus sched "scheduled" ∧
      sqlLocalDate off c.startDate = sqlLocalDate off today
  · simp [activateRow, hc, activateHit]
    intro hcontra
    exact absurd hcontra.symm hs
  · simp [activateRow, hc, activateHit, hc]

/-- A row the WHERE clause does not select is returned unchanged. -/
theorem activateRow_id_of_not_hit (sched : String) (off today dbNow : Int) (c : Campaign)
    (h : activateHit sched off today c = false) :
    activateRow sched off today dbNow c = c := by
  unfold activateHit at h
  unfold activateRow
  rw [if_neg (of_decide_eq_false h)]

/-- C3: the Activate transition is idempotent.  Running
`ActivateScheduledStartingOn` a second time with the same date (and any
database clock) leaves the table exactly as the first run left it and reports
0 affected rows, whenever the configured scheduled-status name is not the
literal `"active"` that the UPDATE writes (true in particular for the default
name `"scheduled"`). -/
theorem c3_activate_idempotent (rows : List Campaign) (today : Int) (sched : String)
    (off dbNow1 dbNow2 : Int) (hs : effStatus sched "scheduled" ≠ "active") :
    (ActivateScheduledStartingOn
        (ActivateScheduledStartingOn rows today sched off dbNow1).1
        today sched off dbNow2).1
      = (ActivateScheduledStartingOn rows today sched off dbNow1).1 ∧
    (ActivateScheduledStartingOn
        (ActivateScheduledStartingOn rows today sched off dbNow1).1
        today sched off dbNow2).2 = 0 := by
  constructor
  · show ((rows.map (activateRow sched off today dbNow1)).map
        (activateRow sched off today dbNow2)) = rows.map (activateRow sched off today dbNow1)
    rw [List.map_map]
    apply List.map_congr_left
    intro c _
    exact activateRow_id_of_not_hit sched off today dbNow2 _
      (activateRow_not_hit sched off today dbNow1 c hs)
  · show ((rows.map (activateRow sched off today dbNow1)).filter
        (activateHit sched off today)).length = 0
    rw [List.length_eq_zero, List.filter_eq_nil_iff]
    intro c hc
    rw [List.mem_map] at hc
    obtain ⟨a, _, rfl⟩ := hc
    simp [activateRow_not_hit sched off today dbNow1 a hs]

/-- Witness for `c3_activate_idempotent` at a concrete table and day. -/
theorem c3_activate_idempotent_witness :
    (ActivateScheduledStartingOn
        (ActivateScheduledStartingOn [marchCampaign] today0301 "scheduled" 0 7).1
        today0301 "scheduled" 0 8).1
      = (ActivateScheduledStartingOn [marchCampaign] today0301 "scheduled" 0 7).1 ∧
    (ActivateScheduledStartingOn
        (ActivateScheduledStartingOn [marchCampaign] today0301 "scheduled" 0 7).1
        today0301 "scheduled" 0 8).2 = 0 :=
  c3_activate_idempotent [marchCampaign] today0301 "scheduled" 0 7 8 (by decide)

/-- C5 counterexample: with the configured status triple
(`"scheduled"`, `"live"`, `"done"`), a scheduled campaign starting today is
moved by the Activate tick to the literal status `"active"`, not to the
configured active-status name `"live"`: the target of the UPDATE is the fixed
literal `'active'`, and the configured active-status name is not even a
parameter of `ActivateScheduledStartingOn`. -/
theorem c5_active_target_is_literal :
    (ActivateScheduledStartingOn [marchCampaign] today0301 "scheduled" 0 999).1
      = [{ marchCampaign with status := "active", updatedAt := 999 }] ∧
    ("active" : String) ≠ "live" := by
  refine ⟨by decide, by decide⟩

/-- C5 amended: the scheduled-status name is configurable (with default
`"scheduled"`, and an empty string falling back to `"scheduled"` inside the
repository), and one Activate tick moves every campaign whose status equals
that configured name and whose `start_date` civil date equals today's to the
fixed literal status `"active"`, regardless of any configured active-status
name. -/
theorem c5_activate_from_configured_to_literal (sched : String) (off today dbNow : Int)
    (c : Campaign) (hst : c.status = effStatus sched "scheduled")
    (hd : sqlLocalDate off c.startDate = sqlLocalDate off today) :
    (activateRow sched off today dbNow c).status = "active" := by
  simp [activateRow, hst, hd]

/-- Witness for `c5_activate_from_configured_to_literal` with a non-default
configured scheduled-status name. -/
theorem c5_activate_literal_witness :
    (activateRow "sched-x" 0 today0301 999
        { marchCampaign with status := "sched-x" }).status = "active" :=
  c5_activate_from_configured_to_literal "sched-x" 0 today0301 999
    { marchCampaign with status := "sched-x" } (by decide) (by decide)

/-- C9: campaigns whose status is `draft` or `paused` are untouched by both
background transitions under the default status configuration: the Activate
tick is the row-wise map of `activateRow` and the (spec-modelled) Complete
tick the row-wise map of `completeRow`, and both are the identity on such a
row. -/
theorem c9_draft_paused_untouched (off today dbNow tnow : Int) (c : Campaign)
    (h : c.status = "draft" ∨ c.status = "paused") :
    activateRow "scheduled" off today dbNow c = c ∧
    completeRow "active" "completed" off tnow c = c ∧
    ∀ rows : List Campaign,
      (ActivateScheduledStartingOn rows today "scheduled" off dbNow).1
        = rows.map (activateRow "scheduled" off today dbNow) ∧
      CompleteActiveEndedBefore rows tnow "active" "completed" off
        = rows.map (completeRow "active" "completed" off tnow) := by
  refine ⟨?_, ?_, fun rows => ⟨rfl, rfl⟩⟩
  · unfold activateRow
    rw [if_neg]
    rintro ⟨hst, -⟩
    rcases h with h | h <;> rw [h] at hst <;> exact absurd hst (by decide)
  · unfold completeRow
    rw [if_neg]
    rintro ⟨hst, -⟩
    rcases h with h | h <;> rw [h] at hst <;> exact absurd hst (by decide)

/-- Witness for `c9_draft_paused_untouched` on a concrete draft campaign. -/
theorem c9_draft_paused_witness :
    activateRow "scheduled" 0 today0301 999
        { marchCampaign with status := "draft" } = { marchCampaign with status := "draft" } ∧
    completeRow "active" "completed" 0 today0301
        { marchCampaign with status := "draft" } = { marchCampaign with status := "draft" } :=
  ⟨(c9_draft_paused_untouched 0 today0301 999 today0301
      { marchCampaign with status := "draft" } (Or.inl rfl)).1,
   (c9_draft_paused_untouched 0 today0301 999 today0301
      { marchCampaign with status := "draft" } (Or.inl rfl)).2.1⟩

/-! ## Claims about scheduler startup and timing -/

/-- Any string `validHHMM` rejects makes `parseHHMM` return its defaults. -/
theorem parseHHMM_default_of_invalid (s : String) (dh dm : Int)
    (h : validHHMM s = false) : parseHHMM s dh dm = (dh, dm) := by
  unfold validHHMM at h
  unfold parseHHMM
  rcases hsp : splitChar ':' s.data with _ | ⟨hs, _ | ⟨ms, _ | _⟩⟩ <;>
      (simp only [hsp] at h ⊢; try rfl)
  rcases hh : goAtoiL hs with _ | hv <;> (simp only [hh] at h ⊢; try rfl)
  rcases hmm : goAtoiL ms with _ | mv <;> (simp only [hmm] at h ⊢; try rfl)
  simp only [decide_eq_false_iff_not] at h
  rw [if_pos (by omega)]

/-- C6: invalid scheduler configuration is never fatal.  When
`time.LoadLocation` (the `resolve` argument) fails on the configured
timezone name, both loops start with UTC (offset 0, name `"UTC"`); and any
fire-time string that does not parse as an in-range `HH:MM` makes
`parseHHMM` return the documented defaults — `00:01` for the activation
loop and `00:02` for the completion loop — so both configurations are still
produced. -/
theorem c6_invalid_config_never_fatal (resolve : String → Option Int)
    (tzEnv statusEnv timeEnv : Option String) (s : String) :
    (resolve (goGetEnv tzEnv "UTC") = none →
       (activatorConfig resolve tzEnv statusEnv timeEnv).locOff = 0 ∧
       (activatorConfig resolve tzEnv statusEnv timeEnv).tzName = "UTC" ∧
       (completerConfig resolve tzEnv statusEnv timeEnv).locOff = 0 ∧
       (completerConfig resolve tzEnv statusEnv timeEnv).tzName = "UTC") ∧
    (validHHMM s = false →
       parseHHMM s 0 1 = (0, 1) ∧ parseHHMM s 0 2 = (0, 2)) := by
  constructor
  · intro hres
    refine ⟨?_, ?_, ?_, ?_⟩ <;> simp [activatorConfig, completerConfig, hres]
  · intro hv
    exact ⟨parseHHMM_default_of_invalid s 0 1 hv, parseHHMM_default_of_invalid s 0 2 hv⟩

/-- Witness for `c6_invalid_config_never_fatal`: an unresolvable timezone and
the fire-time string `"banana"`. -/
theorem c6_invalid_config_witness :
    ((activatorConfig (fun _ => none) none none none).locOff = 0 ∧
     (activatorConfig (fun _ => none) none none none).tzName = "UTC" ∧
     (completerConfig (fun _ => none) none none none).locOff = 0 ∧
     (completerConfig (fun _ => none) none none none).tzName = "UTC") ∧
    (parseHHMM "banana" 0 1 = (0, 1) ∧ parseHHMM "banana" 0 2 = (0, 2)) :=
  ⟨(c6_invalid_config_never_fatal (fun _ => none) none none none "banana").1 rfl,
   (c6_invalid_config_never_fatal (fun _ => none) none none none "banana").2 (by decide)⟩

/-- C7: for every current instant, fixed-offset timezone and fire time with
non-negative hour and minute, `nextRunAt` returns the instant of today's
civil date (in that zone) at `hour:minute` when that instant is still
strictly in the future, and otherwise the corresponding instant of the next
civil day; in both cases the result is strictly after `now`.  (In this
fixed-offset model adding 24 hours to today's fire instant is exactly
tomorrow's fire instant.) -/
theorem c7_next_run_at (now off hour minute : Int)
    (hh : 0 ≤ hour) (hm : 0 ≤ minute) :
    nextRunAt now off hour minute
      = (if now < fireInstant off ((now + off) / 86400) hour minute
         then fireInstant off ((now + off) / 86400) hour minute
         else fireInstant off ((now + off) / 86400 + 1) hour minute) ∧
    now < nextRunAt now off hour minute := by
  constructor <;> simp only [nextRunAt, fireInstant] <;> split_ifs <;> omega

/-- Witness for `c7_next_run_at`: shortly after midnight UTC on the epoch
day, a 00:01 fire time is still in the future. -/
theorem c7_next_run_at_witness :
    (nextRunAt 30 0 0 1
      = (if (30 : Int) < fireInstant 0 ((30 + 0) / 86400) 0 1
         then fireInstant 0 ((30 + 0) / 86400) 0 1
         else fireInstant 0 ((30 + 0) / 86400 + 1) 0 1)) ∧
    (30 : Int) < nextRunAt 30 0 0 1 :=
  c7_next_run_at 30 0 0 1 (by decide) (by decide)

/-- C10: the list-creatives-by-device handler evaluates the active-now
filter at `time.Now().UTC()`: the instant it hands the repository carries
offset 0, and the weekday and `HH:MM` strings the repository derives from it
are exactly the UTC civil weekday name and UTC time-of-day of the instant —
no configured timezone enters the computation. -/
theorem c10_handler_filters_in_utc (t : Int) (rows : List Creative)
    (device : String) (activeNow : Bool) (limit offset : Int) :
    ListCreativesByDevice rows device activeNow t limit offset
      = ListByDevice rows device activeNow ⟨t, 0⟩ limit offset ∧
    goWeekdayString ⟨t, 0⟩ = utcWeekdayString t ∧
    goFormatHHMM ⟨t, 0⟩ = utcHHMM t := by
  refine ⟨rfl, ?_, ?_⟩ <;>
    simp [goWeekdayString, goFormatHHMM, civilDay, civilSecs, utcWeekdayString, utcHHMM]
